import Mathlib

/-!
Formal model of the hackcheck client library (src/hackcheck/main.py).

The development shallowly embeds the schema layer and the client
component: URL construction for search requests, the shared
request-exchange routine with its status-code error classification, and
the JSON encode/decode contract of the typed request and response
shapes.  Python strings are Lean Strings, Python ints are Lean Ints,
optional values are Option, raised exceptions are the error side of
Except.
-/

deriving instance DecidableEq for Except

/-- strJoin models the Python expression sep.join(xs). -/
def strJoin (sep : String) : List String → String
  | [] => ""
  | [x] => x
  | x :: xs => x ++ sep ++ strJoin sep xs

/-- SearchField is a NewType of str in the source. -/
abbrev SearchField := String

def SearchFieldEmail : SearchField := "email"

def SearchFieldUsername : SearchField := "username"

def SearchFieldFullName : SearchField := "full_name"

def SearchFieldPassword : SearchField := "password"

def SearchFieldIPAddress : SearchField := "ip_address"

def SearchFieldPhoneNumber : SearchField := "phone_number"

def SearchFieldDomain : SearchField := "domain"

def SearchFieldHash : SearchField := "hash"

/-- SearchFilter is a NewType of str in the source. -/
abbrev SearchFilter := String

def SearchFilterUse : SearchFilter := "use"

def SearchFilterIgnore : SearchFilter := "ignore"

/-- MonitorStatus is a NewType of int in the source. -/
abbrev MonitorStatus := Int

def MonitorStatusRunning : MonitorStatus := 0

def MonitorStatusPaused : MonitorStatus := 1

def MonitorStatusExpired : MonitorStatus := 2

/-- SearchFilterOptions NamedTuple: a filter mode and a database list. -/
structure SearchFilterOptions where
  type : SearchFilter
  databases : List String
  deriving DecidableEq

/-- SearchPaginationOptions NamedTuple: a page window. -/
structure SearchPaginationOptions where
  offset : Int
  limit : Int
  deriving DecidableEq

/-- SearchOptions NamedTuple.  A present SearchFilterOptions or
SearchPaginationOptions value is a two-element NamedTuple and hence
always truthy in Python, so the Python truth tests on these two fields
coincide with an Option.isSome test. -/
structure SearchOptions where
  field : SearchField
  query : String
  filter : Option SearchFilterOptions
  pagination : Option SearchPaginationOptions
  deriving DecidableEq

/-- API_BASE_URL constant of the source. -/
def API_BASE_URL : String := "https://api.hackcheck.io"

/-- generateSearchUrl models HackCheckClient._generate_search_url:
the path is base/search/field/query; a params list collects, in order,
the filter pair (filter mode, comma-joined databases) when the filter
is present and the pagination pair (offset, limit) when pagination is
present; a query string is appended only when the params list is
nonempty. -/
def generateSearchUrl (options : SearchOptions) : String :=
  let url := API_BASE_URL ++ "/search/" ++ options.field ++ "/" ++ options.query
  let params :=
    (match options.filter with
      | some f => ["filter=" ++ f.type, "databases=" ++ strJoin "," f.databases]
      | none => [])
    ++
    (match options.pagination with
      | some p => ["offset=" ++ toString p.offset, "limit=" ++ toString p.limit]
      | none => [])
  if params.isEmpty then url else url ++ "?" ++ strJoin "&" params

/-- C1: for every SearchOptions with both filter and pagination present,
the built search URL is base/search/field/query followed by a query
string containing exactly, in this order, the filter mode, the
comma-joined database names, the offset and the limit, joined with
ampersands and prefixed with a single question mark. -/
theorem generateSearchUrl_filter_pagination (o : SearchOptions)
    (f : SearchFilterOptions) (p : SearchPaginationOptions)
    (hf : o.filter = some f) (hp : o.pagination = some p) :
    generateSearchUrl o =
      API_BASE_URL ++ "/search/" ++ o.field ++ "/" ++ o.query ++ "?" ++
        strJoin "&" ["filter=" ++ f.type, "databases=" ++ strJoin "," f.databases,
          "offset=" ++ toString p.offset, "limit=" ++ toString p.limit] := by
  simp [generateSearchUrl, hf, hp]

/-- C1 witness: the concrete example of the claim. -/
theorem generateSearchUrl_filter_pagination_witness :
    generateSearchUrl ⟨"email", "a@b.com", some ⟨"use", ["x", "y"]⟩, some ⟨0, 10⟩⟩ =
      "https://api.hackcheck.io/search/email/a@b.com?filter=use&databases=x,y&offset=0&limit=10" := by
  rw [generateSearchUrl_filter_pagination ⟨"email", "a@b.com", some ⟨"use", ["x", "y"]⟩,
    some ⟨0, 10⟩⟩ ⟨"use", ["x", "y"]⟩ ⟨0, 10⟩ rfl rfl]
  rfl

/-- C8: for every SearchOptions with neither filter nor pagination, the
built search URL is exactly base/search/field/query, with no question
mark and no query-string parameters. -/
theorem generateSearchUrl_no_params (o : SearchOptions)
    (hf : o.filter = none) (hp : o.pagination = none) :
    generateSearchUrl o = API_BASE_URL ++ "/search/" ++ o.field ++ "/" ++ o.query := by
  simp [generateSearchUrl, hf, hp]

/-- C8 witness: a concrete options value with neither filter nor
pagination. -/
theorem generateSearchUrl_no_params_witness :
    generateSearchUrl ⟨"email", "a@b.com", none, none⟩ =
      "https://api.hackcheck.io/search/email/a@b.com" := by
  rw [generateSearchUrl_no_params ⟨"email", "a@b.com", none, none⟩ rfl rfl]
  rfl

/-- C9: a present filter with an empty databases list still produces a
query string: filter mode first, then a databases parameter with an
empty value (the comma-join of the empty list), followed by the
pagination parameters when pagination is present. -/
theorem generateSearchUrl_empty_databases (o : SearchOptions) (f : SearchFilterOptions)
    (hf : o.filter = some f) (hdb : f.databases = []) :
    (o.pagination = none →
      generateSearchUrl o =
        API_BASE_URL ++ "/search/" ++ o.field ++ "/" ++ o.query ++ "?" ++
          strJoin "&" ["filter=" ++ f.type, "databases="]) ∧
    (∀ p : SearchPaginationOptions, o.pagination = some p →
      generateSearchUrl o =
        API_BASE_URL ++ "/search/" ++ o.field ++ "/" ++ o.query ++ "?" ++
          strJoin "&" ["filter=" ++ f.type, "databases=",
            "offset=" ++ toString p.offset, "limit=" ++ toString p.limit]) := by
  constructor
  · intro hp
    simp [generateSearchUrl, hf, hp, hdb, strJoin]
  · intro p hp
    simp [generateSearchUrl, hf, hp, hdb, strJoin]

/-- C9 witness: concrete options with an empty databases list, with and
without pagination. -/
theorem generateSearchUrl_empty_databases_witness :
    generateSearchUrl ⟨"email", "a@b.com", some ⟨"use", []⟩, none⟩ =
      "https://api.hackcheck.io/search/email/a@b.com?filter=use&databases=" ∧
    generateSearchUrl ⟨"email", "a@b.com", some ⟨"use", []⟩, some ⟨0, 10⟩⟩ =
      "https://api.hackcheck.io/search/email/a@b.com?filter=use&databases=&offset=0&limit=10" := by
  constructor
  · rw [(generateSearchUrl_empty_databases ⟨"email", "a@b.com", some ⟨"use", []⟩, none⟩
      ⟨"use", []⟩ rfl rfl).1 rfl]
    rfl
  · rw [(generateSearchUrl_empty_databases ⟨"email", "a@b.com", some ⟨"use", []⟩, some ⟨0, 10⟩⟩
      ⟨"use", []⟩ rfl rfl).2 ⟨0, 10⟩ rfl]
    rfl

/-- Json models a decoded Python JSON value, the result of a successful
response.json() call. -/
inductive Json
  | null
  | bool (b : Bool)
  | num (n : Int)
  | str (s : String)
  | arr (elems : List Json)
  | obj (fields : List (String × Json))

/-- Json.get models Python dict key access on a JSON object. -/
def Json.get (j : Json) (key : String) : Option Json :=
  match j with
  | .obj fields => fields.lookup key
  | _ => none

/-- PyError models the exceptions the request routine can raise: the
four exception classes of the source, the untyped Exception of the 400
and 404 branches, plus the ValueError of the int builtin, the decode
error of response.json() and the serde error of from_dict. -/
inductive PyError
  | invalidAPIKeyError (msg : String)
  | unauthorizedIPAddressError (msg : String)
  | serverError (msg : String)
  | rateLimitError (limit : Int) (remaining : Int)
  | genericError (msg : String)
  | valueError
  | jsonDecodeError
  | serdeError
  deriving DecidableEq

/-- ErrorResponse dataclass: the error payload shape of the service. -/
structure ErrorResponse where
  error : String
  deriving DecidableEq

/-- decodeStr models the serde decode of a declared str field. -/
def decodeStr : Json → Except PyError String
  | .str s => .ok s
  | _ => .error .serdeError

/-- decodeInt models the serde decode of a declared int field. -/
def decodeInt : Json → Except PyError Int
  | .num n => .ok n
  | _ => .error .serdeError

/-- decodeBool models the serde decode of a declared bool field. -/
def decodeBool : Json → Except PyError Bool
  | .bool b => .ok b
  | _ => .error .serdeError

/-- reqField models the serde decode of a required dataclass field:
the key must be present and its value must decode. -/
def reqField (j : Json) (key : String) (dec : Json → Except PyError α) :
    Except PyError α :=
  match j.get key with
  | some v => dec v
  | none => .error .serdeError

/-- Modelled from the spec: the serde decode of an Optional dataclass
field (the from_dict machinery lives in the external serde library, not
in this repository).  A missing key or an explicit null decodes to
absent; any other value must decode. -/
def optField (j : Json) (key : String) (dec : Json → Except PyError α) :
    Except PyError (Option α) :=
  match j.get key with
  | none => .ok none
  | some .null => .ok none
  | some v => (dec v).map some

/-- errorResponseFromDict models from_dict(ErrorResponse, ...). -/
def errorResponseFromDict (j : Json) : Except PyError ErrorResponse :=
  (reqField j "error" decodeStr).map ErrorResponse.mk

/-- Response models the httpx response the request routine classifies:
its status code, its headers and its body.  A body of none stands for a
missing or malformed body, on which response.json() raises. -/
structure Response where
  status : Nat
  headers : List (String × String)
  body : Option Json

/-- responseJson models the response.json() call. -/
def responseJson (r : Response) : Except PyError Json :=
  match r.body with
  | none => .error .jsonDecodeError
  | some j => .ok j

/-- strLower lowercases every character of a string, as the
case-insensitive httpx header lookup does with header names. -/
def strLower (s : String) : String :=
  ⟨s.data.map Char.toLower⟩

/-- headerGet models the case-insensitive httpx header lookup
response.headers.get(key), none when the header is absent. -/
def headerGet : List (String × String) → String → Option String
  | [], _ => none
  | (k, v) :: rest, key =>
      if strLower k = strLower key then some v else headerGet rest key

/-- isPySpace holds on the ASCII whitespace the Python int builtin
strips from a string argument. -/
def isPySpace (c : Char) : Bool :=
  c == ' ' || c == '\t' || c == '\n' || c == '\r' || c == Char.ofNat 11 || c == Char.ofNat 12

/-- pyDigitsCore accumulates a decimal digit sequence in which a single
underscore may stand between two digits, as the Python int builtin
accepts. -/
def pyDigitsCore : Nat → List Char → Option Nat
  | acc, [] => some acc
  | acc, '_' :: c :: rest =>
      if c.isDigit then pyDigitsCore (acc * 10 + (c.toNat - 48)) rest else none
  | _, ['_'] => none
  | acc, c :: rest =>
      if c.isDigit then pyDigitsCore (acc * 10 + (c.toNat - 48)) rest else none

/-- pyIntParse models the Python builtin int applied to a string:
surrounding whitespace is stripped, an optional sign precedes a
nonempty digit sequence; any other string raises ValueError, modelled
as none. -/
def pyIntParse (s : String) : Option Int :=
  let cs := ((s.toList.dropWhile isPySpace).reverse.dropWhile isPySpace).reverse
  let signAndDigits : Bool × List Char :=
    match cs with
    | '-' :: rest => (true, rest)
    | '+' :: rest => (false, rest)
    | _ => (false, cs)
  match signAndDigits with
  | (neg, ds) =>
    match ds with
    | [] => none
    | c :: _ =>
      if c.isDigit then
        (pyDigitsCore 0 ds).map (fun n => if neg then -(n : Int) else (n : Int))
      else none

/-- headerIntOr0 models int(response.headers.get(key, 0)): an absent
header yields the int 0, a present header is parsed by the int builtin,
which raises ValueError on a non-integer string. -/
def headerIntOr0 (headers : List (String × String)) (key : String) :
    Except PyError Int :=
  match headerGet headers key with
  | none => .ok 0
  | some s =>
    match pyIntParse s with
    | some n => .ok n
    | none => .error .valueError

/-- handleResponse models the classification part of
HackCheckClient._request, applied to the response of the HTTP exchange:
a 401 decodes the error body and dispatches on its error string; a 429
reads the two rate-limit headers through the int builtin and raises
RateLimitError; a 400 or 404 decodes the error body and raises a
generic Exception carrying its error string; any other status returns
the JSON body. -/
def handleResponse (response : Response) : Except PyError Json :=
  if response.status = 401 then do
    let data ← responseJson response >>= errorResponseFromDict
    if data.error = "Invalid API key." then
      .error (.invalidAPIKeyError "The provided API key is invalid.")
    else if data.error = "Unauthorized IP address." then
      .error (.unauthorizedIPAddressError "The request is coming from an unauthorized IP address.")
    else
      .error (.serverError "An unknown server error occurred.")
  else if response.status = 429 then do
    let limit ← headerIntOr0 response.headers "X-HackCheck-Limit"
    let remaining ← headerIntOr0 response.headers "X-HackCheck-Remaining"
    .error (.rateLimitError limit remaining)
  else if response.status = 400 ∨ response.status = 404 then do
    let data ← responseJson response >>= errorResponseFromDict
    .error (.genericError data.error)
  else
    responseJson response

/-- requestAndDecode composes the shared exchange routine with the
success-payload decoder its caller applies to the returned dict, as in
HackCheckClient.search. -/
def requestAndDecode {α : Type} (dec : Json → Except PyError α) (r : Response) :
    Except PyError α := do
  let j ← handleResponse r
  dec j

/-- exceptBind_ok: binding a success applies the continuation. -/
theorem exceptBind_ok {e a b : Type} (x : a) (f : a → Except e b) :
    (Except.ok x : Except e a) >>= f = f x := rfl

/-- exceptBind_error: binding a failure keeps the failure. -/
theorem exceptBind_error {e a b : Type} (err : e) (f : a → Except e b) :
    (Except.error err : Except e a) >>= f = Except.error err := rfl

/-- bindAlwaysError: a bind whose continuation always fails fails. -/
theorem bindAlwaysError {e a b : Type} (x : Except e a) (f : a → Except e b)
    (hf : ∀ v, ∃ err, f v = .error err) : ∃ err, x >>= f = .error err := by
  cases x with
  | error err => exact ⟨err, rfl⟩
  | ok v => exact hf v

/-- C2: for every 401 response, the request routine raises exactly one
of three errors determined by the decoded error string of the body:
InvalidAPIKeyError when it equals the invalid-key message,
UnauthorizedIPAddressError when it equals the unauthorized-IP message,
and ServerError for any other error string. -/
theorem handleResponse_401_dispatch (r : Response) (j : Json) (s : String)
    (hst : r.status = 401) (hb : r.body = some j)
    (hd : errorResponseFromDict j = .ok ⟨s⟩) :
    (s = "Invalid API key." →
      handleResponse r = .error (.invalidAPIKeyError "The provided API key is invalid.")) ∧
    (s = "Unauthorized IP address." →
      handleResponse r =
        .error (.unauthorizedIPAddressError "The request is coming from an unauthorized IP address.")) ∧
    (s ≠ "Invalid API key." → s ≠ "Unauthorized IP address." →
      handleResponse r = .error (.serverError "An unknown server error occurred.")) := by
  refine ⟨fun h1 => ?_, fun h1 => ?_, fun h1 h2 => ?_⟩ <;>
    simp [handleResponse, hst, responseJson, hb, hd, exceptBind_ok, h1, *]

/-- C2 witness: the three concrete 401 bodies of the claim. -/
theorem handleResponse_401_dispatch_witness :
    handleResponse ⟨401, [], some (Json.obj [("error", Json.str "Invalid API key.")])⟩ =
      .error (.invalidAPIKeyError "The provided API key is invalid.") ∧
    handleResponse ⟨401, [], some (Json.obj [("error", Json.str "Unauthorized IP address.")])⟩ =
      .error (.unauthorizedIPAddressError "The request is coming from an unauthorized IP address.") ∧
    handleResponse ⟨401, [], some (Json.obj [("error", Json.str "boom")])⟩ =
      .error (.serverError "An unknown server error occurred.") :=
  ⟨(handleResponse_401_dispatch ⟨401, [], some (Json.obj [("error", Json.str "Invalid API key.")])⟩
      (Json.obj [("error", Json.str "Invalid API key.")]) "Invalid API key." rfl rfl rfl).1 rfl,
   (handleResponse_401_dispatch ⟨401, [], some (Json.obj [("error", Json.str "Unauthorized IP address.")])⟩
      (Json.obj [("error", Json.str "Unauthorized IP address.")]) "Unauthorized IP address." rfl rfl rfl).2.1 rfl,
   (handleResponse_401_dispatch ⟨401, [], some (Json.obj [("error", Json.str "boom")])⟩
      (Json.obj [("error", Json.str "boom")]) "boom" rfl rfl rfl).2.2 (by decide) (by decide)⟩

/-- C3: classification by status code precedes any success-payload
decode: on a 401, 429, 400 or 404 the routine fails, and the outcome
does not depend on the success-payload decoder at all; on any other
status the body is decoded by the success-payload decoder and the typed
result is returned. -/
theorem requestAndDecode_classify_precedence {α : Type} (r : Response)
    (d1 d2 : Json → Except PyError α) :
    ((r.status = 401 ∨ r.status = 429 ∨ r.status = 400 ∨ r.status = 404) →
      (∃ e, requestAndDecode d1 r = .error e) ∧
        requestAndDecode d1 r = requestAndDecode d2 r) ∧
    (r.status ≠ 401 → r.status ≠ 429 → r.status ≠ 400 → r.status ≠ 404 →
      requestAndDecode d1 r = (responseJson r).bind d1) := by
  have herr : (r.status = 401 ∨ r.status = 429 ∨ r.status = 400 ∨ r.status = 404) →
      ∃ e, handleResponse r = .error e := by
    intro h
    unfold handleResponse
    rcases h with h | h | h | h <;> rw [h]
    · rw [if_pos rfl]
      refine bindAlwaysError _ _ (fun data => ?_)
      dsimp only
      split
      · exact ⟨_, rfl⟩
      split
      · exact ⟨_, rfl⟩
      · exact ⟨_, rfl⟩
    · rw [if_neg (by decide : ¬ (429 : Nat) = 401), if_pos rfl]
      exact bindAlwaysError _ _ (fun limit =>
        bindAlwaysError _ _ (fun remaining => ⟨_, rfl⟩))
    · rw [if_neg (by decide : ¬ (400 : Nat) = 401), if_neg (by decide : ¬ (400 : Nat) = 429),
        if_pos (Or.inl rfl)]
      exact bindAlwaysError _ _ (fun data => ⟨_, rfl⟩)
    · rw [if_neg (by decide : ¬ (404 : Nat) = 401), if_neg (by decide : ¬ (404 : Nat) = 429),
        if_pos (Or.inr rfl)]
      exact bindAlwaysError _ _ (fun data => ⟨_, rfl⟩)
  constructor
  · intro h
    obtain ⟨e, he⟩ := herr h
    refine ⟨⟨e, ?_⟩, ?_⟩
    · show handleResponse r >>= d1 = .error e
      rw [he]
      rfl
    · show handleResponse r >>= d1 = handleResponse r >>= d2
      rw [he, exceptBind_error, exceptBind_error]
  · intro h1 h2 h3 h4
    have hhr : handleResponse r = responseJson r := by
      unfold handleResponse
      rw [if_neg h1, if_neg h2, if_neg (fun hc => hc.elim h3 h4)]
    show handleResponse r >>= d1 = (responseJson r).bind d1
    rw [hhr]
    rfl

/-- decConst0: a sample success-payload decoder. -/
def decConst0 : Json → Except PyError Int := fun _ => .ok 0

/-- decFail: a sample always-failing success-payload decoder. -/
def decFail : Json → Except PyError Int := fun _ => .error .serdeError

/-- C3 witness: a concrete 401 response is classified identically under
two different success-payload decoders, and a concrete 200 response is
passed to the decoder. -/
theorem requestAndDecode_classify_precedence_witness :
    ((∃ e, requestAndDecode decConst0 ⟨401, [], some (Json.obj [("error", Json.str "x")])⟩ =
        .error e) ∧
      requestAndDecode decConst0 ⟨401, [], some (Json.obj [("error", Json.str "x")])⟩ =
        requestAndDecode decFail ⟨401, [], some (Json.obj [("error", Json.str "x")])⟩) ∧
    requestAndDecode decConst0 ⟨200, [], some Json.null⟩ =
      (responseJson ⟨200, [], some Json.null⟩).bind decConst0 :=
  ⟨(requestAndDecode_classify_precedence _ decConst0 decFail).1 (Or.inl rfl),
   (requestAndDecode_classify_precedence _ decConst0 decFail).2
     (by decide) (by decide) (by decide) (by decide)⟩

/-- C4 counterexample: on a 429 response whose limit header is present
but not an integer, the int builtin raises ValueError, so the claimed
default to 0 does not happen and no RateLimitError is raised. -/
theorem rateLimit_unparseable_counterexample :
    handleResponse ⟨429, [("X-HackCheck-Limit", "abc")], none⟩ = .error PyError.valueError ∧
    (Except.error PyError.valueError : Except PyError Json) ≠
      Except.error (PyError.rateLimitError 0 0) :=
  ⟨rfl, fun h => PyError.noConfusion (Except.error.inj h)⟩

/-- C4 amended: for every 429 response, the routine raises
RateLimitError with limit and remaining taken from the two rate-limit
headers, each defaulting to 0 when its header is absent; a header that
is present but unparseable as an integer makes the int builtin raise
ValueError instead, rather than defaulting to 0. -/
theorem handleResponse_429_rate_limit (r : Response) (hst : r.status = 429) :
    (∀ l rm : Int,
      headerIntOr0 r.headers "X-HackCheck-Limit" = .ok l →
      headerIntOr0 r.headers "X-HackCheck-Remaining" = .ok rm →
      handleResponse r = .error (.rateLimitError l rm)) ∧
    (headerGet r.headers "X-HackCheck-Limit" = none →
      headerGet r.headers "X-HackCheck-Remaining" = none →
      handleResponse r = .error (.rateLimitError 0 0)) ∧
    (∀ s, headerGet r.headers "X-HackCheck-Limit" = some s → pyIntParse s = none →
      handleResponse r = .error PyError.valueError) := by
  refine ⟨fun l rm hl hrm => ?_, fun hl hrm => ?_, fun s hs hp => ?_⟩
  · simp [handleResponse, hst, exceptBind_ok, exceptBind_error, hl, hrm]
  · simp [handleResponse, hst, headerIntOr0, exceptBind_ok, exceptBind_error, hl, hrm]
  · simp [handleResponse, hst, headerIntOr0, exceptBind_ok, exceptBind_error, hs, hp]

/-- C4 witness: the concrete headers of the claim yield limit 100 and
remaining 0. -/
theorem handleResponse_429_rate_limit_witness :
    handleResponse ⟨429, [("X-HackCheck-Limit", "100"), ("X-HackCheck-Remaining", "0")], none⟩ =
      .error (.rateLimitError 100 0) :=
  (handleResponse_429_rate_limit _ rfl).1 100 0 rfl rfl

/-- C5: for every 400 or 404 response whose body is an error object
carrying the string s, the request routine raises a generic failure
whose message is exactly s. -/
theorem handleResponse_400_404_generic (r : Response) (s : String)
    (hst : r.status = 400 ∨ r.status = 404)
    (hb : r.body = some (Json.obj [("error", Json.str s)])) :
    handleResponse r = .error (.genericError s) := by
  rcases hst with h | h <;>
    simp [handleResponse, h, responseJson, hb, errorResponseFromDict, reqField, Json.get,
      decodeStr, exceptBind_ok, Except.map, List.lookup]

/-- C5 witness: the concrete 400 body of the claim. -/
theorem handleResponse_400_404_generic_witness :
    handleResponse ⟨400, [], some (Json.obj [("error", Json.str "bad field")])⟩ =
      .error (.genericError "bad field") :=
  handleResponse_400_404_generic _ "bad field" (Or.inl rfl) rfl

/-- C10: the 429 classification reads only the two rate-limit headers:
its outcome is independent of the body, and with both headers absent a
RateLimitError with both values 0 is raised whatever the body is,
including a missing or malformed one. -/
theorem handleResponse_429_ignores_body (headers : List (String × String))
    (b1 b2 : Option Json) :
    handleResponse ⟨429, headers, b1⟩ = handleResponse ⟨429, headers, b2⟩ ∧
    (headerGet headers "X-HackCheck-Limit" = none →
      headerGet headers "X-HackCheck-Remaining" = none →
      ∀ b : Option Json, handleResponse ⟨429, headers, b⟩ = .error (.rateLimitError 0 0)) := by
  constructor
  · rfl
  · intro hl hrm b
    simp [handleResponse, headerIntOr0, hl, hrm, exceptBind_ok]

/-- C10 witness: with no headers and no body at all, a 429 yields
RateLimitError with both values 0. -/
theorem handleResponse_429_ignores_body_witness :
    handleResponse ⟨429, [], none⟩ = .error (.rateLimitError 0 0) :=
  (handleResponse_429_ignores_body [] none (some Json.null)).2 rfl rfl none

/-- PaginationData dataclass. -/
structure PaginationData where
  offset : Int
  limit : Int
  deriving DecidableEq

/-- SearchResponsePagination dataclass: a document count and two
optional page windows. -/
structure SearchResponsePagination where
  document_count : Int
  next : Option PaginationData
  prev : Option PaginationData
  deriving DecidableEq

/-- Source dataclass. -/
structure Source where
  name : String
  date : String
  deriving DecidableEq

/-- SearchResult dataclass. -/
structure SearchResult where
  email : String
  password : String
  username : String
  full_name : String
  ip_address : String
  phone_number : String
  hash : String
  source : Source
  deriving DecidableEq

/-- SearchResponse dataclass. -/
structure SearchResponse where
  databases : Int
  results : List SearchResult
  pagination : Option SearchResponsePagination
  first_seen : String
  last_seen : String
  deriving DecidableEq

/-- AssetMonitor dataclass.  The two datetime fields are modelled by
their ISO-8601 strings; the decoded datetime value is in bijection with
the accepted string and plays no role in the stated claims. -/
structure AssetMonitor where
  id : String
  status : MonitorStatus
  type : SearchField
  asset : String
  notification_email : String
  expires_soon : Bool
  created_at : String
  ends_at : String
  deriving DecidableEq

/-- UpdateAssetMonitorParams dataclass. -/
structure UpdateAssetMonitorParams where
  asset_type : SearchField
  asset : String
  notification_email : String
  deriving DecidableEq

/-- decodeList models the serde decode of a declared List field. -/
def decodeList (dec : Json → Except PyError α) : Json → Except PyError (List α)
  | .arr xs => xs.mapM dec
  | _ => .error .serdeError

/-- decodePaginationData models from_dict(PaginationData, ...). -/
def decodePaginationData (j : Json) : Except PyError PaginationData := do
  let offset ← reqField j "offset" decodeInt
  let limit ← reqField j "limit" decodeInt
  .ok ⟨offset, limit⟩

/-- decodeSearchResponsePagination models
from_dict(SearchResponsePagination, ...): document_count is required,
next and prev are Optional. -/
def decodeSearchResponsePagination (j : Json) : Except PyError SearchResponsePagination := do
  let document_count ← reqField j "document_count" decodeInt
  let nxt ← optField j "next" decodePaginationData
  let prv ← optField j "prev" decodePaginationData
  .ok ⟨document_count, nxt, prv⟩

/-- decodeSource models from_dict(Source, ...). -/
def decodeSource (j : Json) : Except PyError Source := do
  let name ← reqField j "name" decodeStr
  let date ← reqField j "date" decodeStr
  .ok ⟨name, date⟩

/-- decodeSearchResult models from_dict(SearchResult, ...). -/
def decodeSearchResult (j : Json) : Except PyError SearchResult := do
  let email ← reqField j "email" decodeStr
  let password ← reqField j "password" decodeStr
  let username ← reqField j "username" decodeStr
  let full_name ← reqField j "full_name" decodeStr
  let ip_address ← reqField j "ip_address" decodeStr
  let phone_number ← reqField j "phone_number" decodeStr
  let hash ← reqField j "hash" decodeStr
  let source ← reqField j "source" decodeSource
  .ok ⟨email, password, username, full_name, ip_address, phone_number, hash, source⟩

/-- decodeSearchResponse models from_dict(SearchResponse, ...):
databases, results, first_seen and last_seen are required, pagination
is Optional. -/
def decodeSearchResponse (j : Json) : Except PyError SearchResponse := do
  let databases ← reqField j "databases" decodeInt
  let results ← reqField j "results" (decodeList decodeSearchResult)
  let pagination ← optField j "pagination" decodeSearchResponsePagination
  let first_seen ← reqField j "first_seen" decodeStr
  let last_seen ← reqField j "last_seen" decodeStr
  .ok ⟨databases, results, pagination, first_seen, last_seen⟩

/-- decodeAssetMonitor models from_dict(AssetMonitor, ...). -/
def decodeAssetMonitor (j : Json) : Except PyError AssetMonitor := do
  let mid ← reqField j "id" decodeStr
  let status ← reqField j "status" decodeInt
  let ty ← reqField j "type" decodeStr
  let asset ← reqField j "asset" decodeStr
  let notification_email ← reqField j "notification_email" decodeStr
  let expires_soon ← reqField j "expires_soon" decodeBool
  let created_at ← reqField j "created_at" decodeStr
  let ends_at ← reqField j "ends_at" decodeStr
  .ok ⟨mid, status, ty, asset, notification_email, expires_soon, created_at, ends_at⟩

/-- toDictUpdateAssetMonitorParams models to_dict(params): exactly the
declared fields, snake_case names preserved. -/
def toDictUpdateAssetMonitorParams (p : UpdateAssetMonitorParams) : Json :=
  Json.obj [("asset_type", .str p.asset_type), ("asset", .str p.asset),
    ("notification_email", .str p.notification_email)]

/-- Modelled from the spec: the AssetMonitor JSON the service echoes
back for an update request (the service itself is external to this
repository).  It carries the encoded asset type under the key type, the
encoded asset and notification email unchanged, plus the added id,
status, expires_soon and the two timestamps. -/
def assetMonitorEcho (enc : Json) (mid : String) (status : Int) (expires_soon : Bool)
    (created_at ends_at : String) : Json :=
  Json.obj [("id", .str mid), ("status", .num status),
    ("type", (enc.get "asset_type").getD .null),
    ("asset", (enc.get "asset").getD .null),
    ("notification_email", (enc.get "notification_email").getD .null),
    ("expires_soon", .bool expires_soon),
    ("created_at", .str created_at), ("ends_at", .str ends_at)]

/-- exceptBindOkInv: a successful bind splits into two successes. -/
theorem exceptBindOkInv {e a b : Type} {x : Except e a} {f : a → Except e b} {v : b}
    (h : x >>= f = .ok v) : ∃ u, x = .ok u ∧ f u = .ok v := by
  cases x with
  | error err => exact Except.noConfusion h
  | ok u => exact ⟨u, rfl, h⟩

/-- C6: in a decoded SearchResponse the optional pagination field, and
in a decoded SearchResponsePagination the optional next and prev
fields, decode to absent whenever the JSON key is missing or explicitly
null, never to a zero or empty default. -/
theorem decode_optional_absent (j : Json) :
    (∀ r : SearchResponse, decodeSearchResponse j = .ok r →
      (j.get "pagination" = none ∨ j.get "pagination" = some Json.null) →
      r.pagination = none) ∧
    (∀ q : SearchResponsePagination, decodeSearchResponsePagination j = .ok q →
      ((j.get "next" = none ∨ j.get "next" = some Json.null) → q.next = none) ∧
      ((j.get "prev" = none ∨ j.get "prev" = some Json.null) → q.prev = none)) := by
  constructor
  · intro r hdec hkey
    have hopt : optField j "pagination" decodeSearchResponsePagination =
        .ok (none : Option SearchResponsePagination) := by
      rcases hkey with h | h <;> simp [optField, h]
    obtain ⟨d, hd1, hdec⟩ := exceptBindOkInv hdec
    obtain ⟨res, hd2, hdec⟩ := exceptBindOkInv hdec
    obtain ⟨pag, hd3, hdec⟩ := exceptBindOkInv hdec
    obtain ⟨fs, hd4, hdec⟩ := exceptBindOkInv hdec
    obtain ⟨ls, hd5, hdec⟩ := exceptBindOkInv hdec
    rw [hopt] at hd3
    cases Except.ok.inj hd3
    cases Except.ok.inj hdec
    rfl
  · intro q hdec
    obtain ⟨d, hd1, hdec⟩ := exceptBindOkInv hdec
    obtain ⟨nx, hd2, hdec⟩ := exceptBindOkInv hdec
    obtain ⟨pv, hd3, hdec⟩ := exceptBindOkInv hdec
    cases Except.ok.inj hdec
    constructor
    · intro hkey
      have hopt : optField j "next" decodePaginationData =
          .ok (none : Option PaginationData) := by
        rcases hkey with h | h <;> simp [optField, h]
      rw [hopt] at hd2
      cases Except.ok.inj hd2
      rfl
    · intro hkey
      have hopt : optField j "prev" decodePaginationData =
          .ok (none : Option PaginationData) := by
        rcases hkey with h | h <;> simp [optField, h]
      rw [hopt] at hd3
      cases Except.ok.inj hd3
      rfl

/-- sampleSearchResponseJson: a SearchResponse body without the
pagination key. -/
def sampleSearchResponseJson : Json :=
  Json.obj [("databases", Json.num 2), ("results", Json.arr []),
    ("first_seen", Json.str "a"), ("last_seen", Json.str "b")]

/-- samplePaginationJson: a SearchResponsePagination body with a null
next and a missing prev. -/
def samplePaginationJson : Json :=
  Json.obj [("document_count", Json.num 5), ("next", Json.null)]

/-- C6 witness: concrete bodies with a missing pagination key, a null
next and a missing prev all decode to absent fields. -/
theorem decode_optional_absent_witness :
    decodeSearchResponse sampleSearchResponseJson = .ok ⟨2, [], none, "a", "b"⟩ ∧
    (⟨2, [], none, "a", "b"⟩ : SearchResponse).pagination = none ∧
    decodeSearchResponsePagination samplePaginationJson = .ok ⟨5, none, none⟩ ∧
    (⟨5, none, none⟩ : SearchResponsePagination).next = none ∧
    (⟨5, none, none⟩ : SearchResponsePagination).prev = none :=
  ⟨rfl,
   (decode_optional_absent sampleSearchResponseJson).1 ⟨2, [], none, "a", "b"⟩ rfl (Or.inl rfl),
   rfl,
   ((decode_optional_absent samplePaginationJson).2 ⟨5, none, none⟩ rfl).1 (Or.inr rfl),
   ((decode_optional_absent samplePaginationJson).2 ⟨5, none, none⟩ rfl).2 (Or.inl rfl)⟩

/-- C7: encoding UpdateAssetMonitorParams and decoding the echoed
AssetMonitor preserves the asset type, the asset and the notification
email unchanged, alongside the added id, status and timestamps. -/
theorem updateAssetMonitor_roundtrip (p : UpdateAssetMonitorParams)
    (mid : String) (st : Int) (es : Bool) (ca ea : String) :
    decodeAssetMonitor (assetMonitorEcho (toDictUpdateAssetMonitorParams p) mid st es ca ea) =
      .ok ⟨mid, st, p.asset_type, p.asset, p.notification_email, es, ca, ea⟩ := rfl
